import Mathlib

/-!
Verification of the `bindgen-lto-opt` crate-root manifest (`src/lib.rs`).

The supplied source is a single module manifest:

  pub mod c_wrapper;
  pub mod rust_port;

  // Re-export for easy access
  pub use c_wrapper as c_ffi;
  pub use rust_port as native;

We embed the crate root as a list of top-level items, together with the
name-resolution and call-delegation semantics such a manifest induces.  The
item grammar deliberately includes the kinds of items a Rust crate root can
carry (functions, type definitions, `static`/`const` values, `cfg`-gated
items) so that statements of the form "the manifest contains no X" are about
a grammar in which X is expressible.  The hidden submodules `c_wrapper` and
`rust_port` are not part of the supplied source; where a claim depends on
them they are modelled from the specification, with an explicit note.
-/

/-- A top-level item of a Rust crate root, as far as the manifest's shape is
concerned.  `modDecl b n` is `pub mod n;` when `b` is `true` (`mod n;`
otherwise); `useAlias b t n` is `pub use t as n;`; the remaining
constructors stand for item kinds a crate root could contain but this
manifest does not: function definitions, type definitions, `static` items,
`const` items, and items gated behind a `#[cfg(flag)]` attribute. -/
inductive Item where
  | modDecl (isPub : Bool) (name : String)
  | useAlias (isPub : Bool) (target name : String)
  | fnDef (name : String)
  | typeDef (name : String)
  | staticDecl (name : String)
  | constDecl (name : String)
  | cfgGated (flag : String) (item : Item)
deriving DecidableEq, Repr

/-- The six physical lines of `src/lib.rs`, verbatim. -/
def lib_rs_lines : List String :=
  [ "pub mod c_wrapper;",
    "pub mod rust_port;",
    "",
    "// Re-export for easy access",
    "pub use c_wrapper as c_ffi;",
    "pub use rust_port as native;" ]

/-- The crate root of the repository, item by item: the two `pub mod`
declarations and the two `pub use ... as ...` re-exports of `src/lib.rs`
(the blank line and the comment line carry no item). -/
def lib_rs : List Item :=
  [ Item.modDecl true "c_wrapper",
    Item.modDecl true "rust_port",
    Item.useAlias true "c_wrapper" "c_ffi",
    Item.useAlias true "rust_port" "native" ]

/-- The externally visible name an item contributes, paired with the module
it denotes: a `pub mod n` exposes `n` denoting itself, a `pub use t as n`
exposes `n` denoting `t`.  Non-`pub` items and non-module items contribute
no external module name. -/
def Item.exportEntry : Item → Option (String × String)
  | .modDecl true n => some (n, n)
  | .useAlias true t n => some (n, t)
  | _ => none

/-- Resolution of a single-segment external path against a crate root:
the first item exposing that name decides which module the path denotes.
`none` means the path fails to resolve, which in Rust is a build-time
error, not a runtime event. -/
def resolvePub (items : List Item) (path : String) : Option String :=
  items.findSome? fun i =>
    match i.exportEntry with
    | some (n, t) => if n = path then some t else none
    | none => none

/-- Resolution of a two-segment path `m::x`: the module segment resolves
through the manifest, the item segment is looked up inside the module the
first segment denotes.  The result names the (module, item) pair the path
binds to; two paths resolving to the same pair bind the identical item. -/
def resolveItemPath (path item : String) : Option (String × String) :=
  (resolvePub lib_rs path).map fun m => (m, item)

/-- Calling an operation through a path of the facade: resolution picks the
module, the module's semantics `sem` (module name, operation name, input)
produces the observable outcome — an output or a signalled error.  The
facade contributes only the resolution step. -/
def callThrough (sem : String → String → Int → Except String Int)
    (path op : String) (x : Int) : Option (Except String Int) :=
  (resolvePub lib_rs path).map fun m => sem m op x

/-- Calling through the facade with an explicit external state `s` threaded
through the backend semantics: the facade resolves and delegates, touching
no state of its own. -/
def callThroughSt {σ : Type} (sem : String → String → Int → σ → Except String Int × σ)
    (path op : String) (x : Int) (s : σ) : Option (Except String Int × σ) :=
  (resolvePub lib_rs path).map fun m => sem m op x s

/-- The submodule names a crate root declares. -/
def Item.modName : Item → Option String
  | .modDecl _ n => some n
  | _ => none

/-- The `(original, alias)` pairs of the re-exports of a crate root. -/
def aliasPairs (items : List Item) : List (String × String) :=
  items.filterMap fun i =>
    match i with
    | .useAlias _ t n => some (t, n)
    | _ => none

/-- An item that only wires namespaces: a module declaration or a module
alias.  Such an item can define no function, type, or value and can carry
no executable code. -/
def Item.isNamespaceWiring : Item → Bool
  | .modDecl _ _ => true
  | .useAlias _ _ _ => true
  | _ => false

/-- Whether an item is a function definition. -/
def Item.isFnDef : Item → Bool
  | .fnDef _ => true
  | _ => false

/-- Whether an item is a type definition. -/
def Item.isTypeDef : Item → Bool
  | .typeDef _ => true
  | _ => false

/-- Whether an item is a value definition (`static` or `const`). -/
def Item.isValueDef : Item → Bool
  | .staticDecl _ => true
  | .constDecl _ => true
  | _ => false

/-- Whether an item is a `static`, the only item kind of the grammar that
introduces shared mutable state, a mutex, a lock, a channel endpoint or an
RAII resource handle at the crate root. -/
def Item.isStatic : Item → Bool
  | .staticDecl _ => true
  | _ => false

/-- Whether an item is conditional on a build configuration flag. -/
def Item.isCfgGated : Item → Bool
  | .cfgGated _ _ => true
  | _ => false

/-- An element of the crate's external surface.  `moduleExport t n` exposes
module `t` under external name `n`; `codeBoundary n` marks an item whose
body is executable code — the only way a wire format, a CLI, a file format
or an environment-variable read could enter the crate root. -/
inductive Boundary where
  | moduleExport (original ext : String)
  | codeBoundary (name : String)
deriving DecidableEq, Repr

/-- The external surface an item contributes. -/
def Item.surface : Item → List Boundary
  | .modDecl true n => [Boundary.moduleExport n n]
  | .useAlias true t n => [Boundary.moduleExport t n]
  | .fnDef n => [Boundary.codeBoundary n]
  | .staticDecl n => [Boundary.codeBoundary n]
  | .constDecl n => [Boundary.codeBoundary n]
  | _ => []

/-- The external surface of the crate root. -/
def crateSurface : List Boundary := (lib_rs.map Item.surface).flatten

/-- An item under a build configuration `cfg`: a `cfg`-gated item survives
exactly when its flag is set, every other item unconditionally. -/
def Item.activate (cfg : String → Bool) : Item → Option Item
  | .cfgGated flag i => if cfg flag then i.activate cfg else none
  | i => some i

/-- Path resolution under a build configuration: only the items active
under `cfg` take part. -/
def resolveCfg (cfg : String → Bool) (items : List Item) (path : String) :
    Option String :=
  resolvePub (items.filterMap (Item.activate cfg)) path

/-- A backend as the spec describes one: a set of named capabilities and,
for each operation name and input, an observable output or a signalled
error. -/
structure Backend where
  caps : List String
  run : String → Int → Except String Int

/-- Modelled from the spec: the implementations of the submodules
`c_wrapper` and `rust_port` are not part of the supplied source ("the
actual c_wrapper and rust_port implementations are not included").  The
spec describes the shared functionality only abstractly — a capability set
and, per operation and input, an observable output or a signalled error
from a shared error taxonomy — so a `HiddenImpl` packages that unknown
shared semantics, over which all backend statements are quantified. -/
structure HiddenImpl where
  caps : List String
  sem : String → Int → Except String Int

/-- Modelled from the spec: the foreign-binding facade `c_wrapper`
"expose[s] the same operation set as the native backend while delegating
execution to a precompiled external library"; its observable behavior is
the hidden shared semantics. -/
def c_wrapper_backend (h : HiddenImpl) : Backend :=
  { caps := h.caps, run := h.sem }

/-- Modelled from the spec: the native reimplementation `rust_port`
"provide[s] the identical capability set as §4.1" and "must be behaviorally
interchangeable" with it — same inputs, same observable outputs, same error
conditions signaled the same way — so it realizes the same hidden shared
semantics. -/
def rust_port_backend (h : HiddenImpl) : Backend :=
  { caps := h.caps, run := h.sem }

/-- One call a consumer makes through the facade: the logical operation it
belongs to, the module path it goes through, and the operation name. -/
structure Call where
  opCluster : Nat
  path : String
  op : String
deriving DecidableEq, Repr

/-- Whether the facade accepts a call: its module path resolves. -/
def callAccepted (c : Call) : Bool :=
  (resolvePub lib_rs c.path).isSome

/-- Whether the facade accepts every call of an execution. -/
def execAccepted (e : List Call) : Bool :=
  e.all callAccepted

/-- Whether, within each logical operation of an execution, every call
resolves to the same backend module. -/
def sameModulePerOp (e : List Call) : Bool :=
  e.all fun c => e.all fun c2 =>
    !(c.opCluster == c2.opCluster) ||
      (resolvePub lib_rs c.path == resolvePub lib_rs c2.path)

/-- A consumer execution in which one logical operation calls through both
aliases, mixing the two backends. -/
def mixedExec : List Call :=
  [ { opCluster := 0, path := "c_ffi", op := "process" },
    { opCluster := 0, path := "native", op := "process" } ]

theorem resolvePub_c_wrapper : resolvePub lib_rs "c_wrapper" = some "c_wrapper" := by
  decide

theorem resolvePub_c_ffi : resolvePub lib_rs "c_ffi" = some "c_wrapper" := by
  decide

theorem resolvePub_rust_port : resolvePub lib_rs "rust_port" = some "rust_port" := by
  decide

theorem resolvePub_native : resolvePub lib_rs "native" = some "rust_port" := by
  decide

/-- Claim C1: the facade layer is a pure re-export — every item path through
the alias `c_ffi` resolves to the identical (module, item) pair as the same
path through `c_wrapper`, likewise `native` and `rust_port`, and calling
any operation of any backend semantics through an alias yields exactly the
outcome of calling it through the original module, so the facade introduces
no behavior of its own. -/
theorem facade_alias_transparent :
    (∀ x : String, resolveItemPath "c_ffi" x = resolveItemPath "c_wrapper" x) ∧
    (∀ x : String, resolveItemPath "native" x = resolveItemPath "rust_port" x) ∧
    (∀ (sem : String → String → Int → Except String Int) (op : String) (x : Int),
      callThrough sem "c_ffi" op x = callThrough sem "c_wrapper" op x) ∧
    (∀ (sem : String → String → Int → Except String Int) (op : String) (x : Int),
      callThrough sem "native" op x = callThrough sem "rust_port" op x) := by
  refine ⟨fun x => ?_, fun x => ?_, fun sem op x => ?_, fun sem op x => ?_⟩ <;>
    simp only [resolveItemPath, callThrough, resolvePub_c_ffi, resolvePub_c_wrapper,
      resolvePub_native, resolvePub_rust_port]

/-- Claim C2: interface parity — for every hidden shared implementation,
the capability set the foreign-binding backend exposes and the capability
set the native backend exposes are the same list, so each capability of one
is a capability of the other under the same external name, in both
directions. -/
theorem backend_capability_parity :
    ∀ h : HiddenImpl,
      (c_wrapper_backend h).caps = (rust_port_backend h).caps ∧
      (∀ c : String, c ∈ (c_wrapper_backend h).caps → c ∈ (rust_port_backend h).caps) ∧
      (∀ c : String, c ∈ (rust_port_backend h).caps → c ∈ (c_wrapper_backend h).caps) :=
  fun _ => ⟨rfl, fun _ hc => hc, fun _ hc => hc⟩

/-- Claim C3: behavioral interchangeability — for every hidden shared
implementation, every operation and every input, the two backends produce
the same observable outcome: they agree on every successful output and they
signal every error condition the same way. -/
theorem backend_behavioral_equiv :
    ∀ (h : HiddenImpl) (op : String) (x : Int),
      (c_wrapper_backend h).run op x = (rust_port_backend h).run op x ∧
      (∀ y : Int, (c_wrapper_backend h).run op x = Except.ok y ↔
        (rust_port_backend h).run op x = Except.ok y) ∧
      (∀ e : String, (c_wrapper_backend h).run op x = Except.error e ↔
        (rust_port_backend h).run op x = Except.error e) :=
  fun _ _ _ => ⟨rfl, fun _ => Iff.rfl, fun _ => Iff.rfl⟩

/-- Claim C4: the supplied source is exactly a single six-line module
manifest: it declares exactly the two submodules `c_wrapper` and
`rust_port`, re-exports both under strictly shorter aliases, and contains
no function, type, or value definition of its own — every item only wires
namespaces. -/
theorem manifest_shape :
    lib_rs_lines.length = 6 ∧
    lib_rs.filterMap Item.modName = ["c_wrapper", "rust_port"] ∧
    aliasPairs lib_rs = [("c_wrapper", "c_ffi"), ("rust_port", "native")] ∧
    ((aliasPairs lib_rs).all fun p => decide (p.2.length < p.1.length)) = true ∧
    (lib_rs.all fun i => !(i.isFnDef || i.isTypeDef || i.isValueDef)) = true ∧
    (lib_rs.all Item.isNamespaceWiring) = true := by
  decide

/-- Claim C5: the only external boundary of the crate is the module
re-export — the external surface consists of module exports alone, in
particular the re-export pairs expose `c_wrapper` as `c_ffi` and
`rust_port` as `native`, and no item carrying executable code (the only
vehicle for a wire format, CLI, file format, or environment variable) is
present. -/
theorem boundary_only_reexport :
    crateSurface =
      [ Boundary.moduleExport "c_wrapper" "c_wrapper",
        Boundary.moduleExport "rust_port" "rust_port",
        Boundary.moduleExport "c_wrapper" "c_ffi",
        Boundary.moduleExport "rust_port" "native" ] ∧
    (crateSurface.all fun b =>
      match b with
      | Boundary.moduleExport _ _ => true
      | Boundary.codeBoundary _ => false) = true ∧
    aliasPairs lib_rs = [("c_wrapper", "c_ffi"), ("rust_port", "native")] := by
  decide

/-- Claim C6: the facade has no independent runtime failure mode — both
alias paths resolve (so the only conceivable facade failure, an unresolved
module, does not occur; it would in any case be a build-time event, as
`resolvePub` is evaluated at name-resolution time), and a call routed
through an alias returns exactly the backend's outcome, so any error in the
result was signalled by the backend, never by the facade itself. -/
theorem facade_no_runtime_failure :
    (resolvePub lib_rs "c_ffi").isSome = true ∧
    (resolvePub lib_rs "native").isSome = true ∧
    (∀ (sem : String → String → Int → Except String Int) (op : String) (x : Int),
      callThrough sem "c_ffi" op x = some (sem "c_wrapper" op x)) ∧
    (∀ (sem : String → String → Int → Except String Int) (op : String) (x : Int),
      callThrough sem "native" op x = some (sem "rust_port" op x)) := by
  exact ⟨by decide, by decide,
    fun sem op x => by rw [callThrough, resolvePub_c_ffi]; rfl,
    fun sem op x => by rw [callThrough, resolvePub_native]; rfl⟩

/-- Claim C7: the manifest carries no concurrency primitives, no shared
mutable state and no resource acquisition — no `static` (the item kind that
would hold a mutex, lock, thread handle, channel or RAII resource) and no
value item at all is declared at the crate root, every item only wires
namespaces, and a call threaded through the facade with an explicit
external state hands the backend exactly the caller's state and returns
exactly the backend's resulting state, so every invariant on external state
is trivially preserved by the facade. -/
theorem crate_root_stateless :
    (lib_rs.all fun i => !i.isStatic) = true ∧
    (lib_rs.all fun i => !i.isValueDef) = true ∧
    (lib_rs.all Item.isNamespaceWiring) = true ∧
    (∀ (σ : Type) (sem : String → String → Int → σ → Except String Int × σ)
      (op : String) (x : Int) (s : σ),
      callThroughSt sem "c_ffi" op x s = some (sem "c_wrapper" op x s)) ∧
    (∀ (σ : Type) (sem : String → String → Int → σ → Except String Int × σ)
      (op : String) (x : Int) (s : σ),
      callThroughSt sem "native" op x s = some (sem "rust_port" op x s)) := by
  exact ⟨by decide, by decide, by decide,
    fun σ sem op x s => by rw [callThroughSt, resolvePub_c_ffi]; rfl,
    fun σ sem op x s => by rw [callThroughSt, resolvePub_native]; rfl⟩

/-- Claim C8, counterexample: it is not the case that every execution the
facade accepts keeps each logical operation on a single backend module —
the execution `mixedExec`, whose single logical operation calls through
`c_ffi` and through `native`, is accepted in full yet mixes both
backends. -/
theorem backend_mixing_claim_false :
    ¬ (∀ e : List Call, execAccepted e = true → sameModulePerOp e = true) := by
  intro h
  exact absurd (h mixedExec (by decide)) (by decide)

/-- Claim C8, amended: the manifest does not enforce exclusive backend use
within a logical operation — the facade accepts each call independently of
every other call of the execution, and in particular accepts `mixedExec`,
an execution whose one logical operation uses both backend modules; keeping
the backends unmixed is an obligation on consumers (e.g. a build-time
selection), not a property the crate root establishes. -/
theorem facade_permits_backend_mixing :
    execAccepted mixedExec = true ∧
    sameModulePerOp mixedExec = false ∧
    (∀ (c : Call) (e : List Call),
      execAccepted (c :: e) = (callAccepted c && execAccepted e)) := by
  exact ⟨by decide, by decide, fun c e => rfl⟩

/-- Claim C9: the original module names stay externally accessible
alongside the aliases — both `pub mod` declarations are public, each
backend resolves under two distinct public paths (`c_wrapper` and `c_ffi`
to the one, `rust_port` and `native` to the other), so the aliases are
additive rather than renaming. -/
theorem originals_remain_public :
    resolvePub lib_rs "c_wrapper" = some "c_wrapper" ∧
    resolvePub lib_rs "c_ffi" = some "c_wrapper" ∧
    "c_wrapper" ≠ "c_ffi" ∧
    resolvePub lib_rs "rust_port" = some "rust_port" ∧
    resolvePub lib_rs "native" = some "rust_port" ∧
    "rust_port" ≠ "native" ∧
    (lib_rs.all fun i =>
      match i with
      | Item.modDecl isPub _ => isPub
      | _ => true) = true := by
  decide

/-- Claim C10: backend selection is resolved entirely at compile time — the
crate root contains no `cfg`-gated item, and resolution of any path is the
same under every build configuration, equal to the unconditional
resolution; hence which module a fixed path denotes is deterministic, and
two runs of any program using that path bind to the same module. -/
theorem resolution_compile_time_deterministic :
    (lib_rs.all fun i => !i.isCfgGated) = true ∧
    (∀ (cfg : String → Bool) (p : String), resolveCfg cfg lib_rs p = resolvePub lib_rs p) ∧
    (∀ (cfg cfg2 : String → Bool) (p : String),
      resolveCfg cfg lib_rs p = resolveCfg cfg2 lib_rs p) := by
  refine ⟨by decide, fun cfg p => rfl, fun cfg cfg2 p => rfl⟩
